import Mathlib

/-!
Shallow embedding of `src/main.py` (invoice-agent): the Stripe-backed action
handlers, the Gemini tool-calling agent loop, the websocket message protocol
layer, and the connection manager. Remote collaborators (the Stripe payments
API and the Gemini model) are modelled as oracles: each remote call is a
function returning `Except`, with `.error` standing for a raised exception.
-/

namespace InvoiceAgent

/-- A Stripe exception. `stripe.error.InvalidRequestError` (the not-found /
invalid-reference condition) is distinguished from every other exception,
because `create_invoice` catches exactly that class around the customer
lookup. -/
inductive StripeExn
  | invalidRequest (msg : String)
  | other (msg : String)
deriving DecidableEq, Repr

/-- `str(e)` on a Stripe exception. -/
def StripeExn.msg : StripeExn → String
  | .invalidRequest m => m
  | .other m => m

/-- A Stripe customer object, as the handlers read it (`customer.id`). -/
structure StripeCustomer where
  id : String
  email : String
  name : String
  description : String
deriving DecidableEq, Repr

/-- A Stripe invoice object, as the handlers read it (`invoice.id`,
`finalized_invoice.total`, and the line items belonging to it). Amounts are
integer minor units. -/
structure StripeInvoice where
  id : String
  customer : String
  currency : String
  itemAmounts : List Int
  total : Int
deriving DecidableEq, Repr

/-- The payments provider as an oracle: one function per remote call used by
`src/main.py`, each returning `.error e` when the call raises exception `e`.
The spec treats this collaborator as an opaque remote service. -/
structure StripeAPI where
  customerRetrieve : String → Except StripeExn StripeCustomer
  customerCreate : String → String → String → Except StripeExn StripeCustomer
  invoiceCreate : String → String → String → Except StripeExn StripeInvoice
  invoiceItemCreate : String → String → Int → String → String → Except StripeExn Unit
  finalizeInvoice : String → Except StripeExn StripeInvoice
  invoiceList : Option String → Except StripeExn (List StripeInvoice)

/-- Python `email.split("@")[0]`. -/
def emailLocalPart (email : String) : String :=
  (email.splitOn "@").headD ""

/-- Python `s.lower()`: every character mapped to lower case. -/
def pyLower (s : String) : String :=
  ⟨s.data.map Char.toLower⟩

/-- Python `s.upper()`: every character mapped to upper case. -/
def pyUpper (s : String) : String :=
  ⟨s.data.map Char.toUpper⟩

/-- Python `s.strip()`: leading and trailing whitespace removed. -/
def pyStrip (s : String) : String :=
  ⟨((s.data.dropWhile Char.isWhitespace).reverse.dropWhile Char.isWhitespace).reverse⟩

/-- Python `int(float(q))`: truncation toward zero of the numeric argument. -/
def pyTrunc (q : ℚ) : Int :=
  if q < 0 then -Rat.floor (-q) else Rat.floor q

/-- Two-digit zero-padded decimal digits. -/
def twoDigits (n : Nat) : String :=
  (if n < 10 then "0" else "") ++ toString n

/-- Python `f"{n/100:.2f}"` for an integer `n` of minor units: the amount in
major units with exactly two decimals. -/
def moneyStr (n : Int) : String :=
  (if n < 0 then "-" else "")
    ++ toString (n.natAbs / 100) ++ "." ++ twoDigits (n.natAbs % 100)

/-- `create_customer(email, name="", description="")` from `src/main.py`:
creates a Stripe customer (defaulting name to the local part of the email and
description to a fixed text) and returns a status string; every exception is
caught and converted to an error string. -/
def create_customer (api : StripeAPI) (email name description : String) : String :=
  match api.customerCreate email
      (if name = "" then emailLocalPart email else name)
      (if description = "" then "Customer created via AI agent" else description) with
  | .ok customer => "Customer " ++ customer.id ++ " created successfully for " ++ email
  | .error e => "Error creating customer: " ++ e.msg

/-- The success string of `create_invoice` (the final f-string of the Python
function; the currency symbol is the literal character sequence found in the
source file). -/
def invoiceSuccessMsg (invoiceId customerId : String) (amount total : Int)
    (currency : String) : String :=
  "Invoice " ++ invoiceId ++ " created successfully for customer " ++ customerId
    ++ " with amount â‚¹" ++ moneyStr amount ++ " " ++ pyUpper currency
    ++ ". Total: â‚¹" ++ moneyStr total ++ " " ++ pyUpper currency

/-- The inner `try` of `create_invoice`: retrieve the customer; on
`InvalidRequestError` create a demo customer with email
`customer_id + "@demo.com"` and continue under the demo customer's id. Any
other exception (from the retrieve or from the demo create) propagates. -/
def resolveCustomerId (api : StripeAPI) (customer_id : String) :
    Except StripeExn String :=
  match api.customerRetrieve customer_id with
  | .ok _ => .ok customer_id
  | .error (.invalidRequest _) =>
      match api.customerCreate (customer_id ++ "@demo.com")
          ("Demo Customer " ++ customer_id)
          "Demo customer created by AI agent" with
      | .ok demo_customer => .ok demo_customer.id
      | .error e => .error e
  | .error (.other m) => .error (.other m)

/-- `create_invoice(customer_id, amount, currency="inr", description="")` from
`src/main.py`: coerces the amount with `int(float(amount))`, resolves the
customer (demo substitution on not-found), creates the invoice, attaches one
line item for the full amount, finalizes, and reports the finalized invoice.
Every exception is caught and converted to an error string. -/
def create_invoice (api : StripeAPI) (customer_id : String) (amount : ℚ)
    (currency description : String) : String :=
  let amt : Int := pyTrunc amount
  match resolveCustomerId api customer_id with
  | .error e => "Error creating invoice: " ++ e.msg
  | .ok cid =>
    match api.invoiceCreate cid (pyLower currency)
        (if description = "" then "Invoice created by AI agent" else description) with
    | .error e => "Error creating invoice: " ++ e.msg
    | .ok invoice =>
      match api.invoiceItemCreate cid invoice.id amt (pyLower currency)
          (if description = "" then "Invoice item" else description) with
      | .error e => "Error creating invoice: " ++ e.msg
      | .ok _ =>
        match api.finalizeInvoice invoice.id with
        | .error e => "Error creating invoice: " ++ e.msg
        | .ok finalized_invoice =>
            invoiceSuccessMsg finalized_invoice.id cid amt
              finalized_invoice.total currency

/-- `list_invoices(customer_id=None)` from `src/main.py`: lists invoices,
filtered by customer only when `customer_id` is truthy (neither `None` nor the
empty string), and returns a count summary; every exception is caught and
converted to an error string. -/
def list_invoices (api : StripeAPI) (customer_id : Option String) : String :=
  match (match customer_id with
         | some cid => if cid = "" then api.invoiceList none else api.invoiceList (some cid)
         | none => api.invoiceList none) with
  | .ok invoices => "Found " ++ toString invoices.length ++ " invoices."
  | .error e => "Error listing invoices: " ++ e.msg

/-- An argument value in a Gemini function call (string or number). -/
inductive GVal
  | str (s : String)
  | num (q : ℚ)
deriving DecidableEq, Repr

/-- A structured function call emitted by the model: a tool name and an
argument mapping. -/
structure FunctionCall where
  name : String
  args : List (String × GVal)
deriving DecidableEq, Repr

/-- One part of a model candidate's content: an optional function call (the
protobuf field is falsy when unset) and a text payload. -/
structure Part where
  function_call : Option FunctionCall
  text : String
deriving DecidableEq, Repr

/-- The content of a model candidate. -/
structure Content where
  parts : List Part
deriving DecidableEq, Repr

/-- One response candidate; `content` is `none` when the field is absent or
falsy. -/
structure Candidate where
  content : Option Content
deriving DecidableEq, Repr

/-- A model response: a list of candidates. -/
structure ModelResponse where
  candidates : List Candidate
deriving DecidableEq, Repr

/-- The fixed names of the three registered tools. -/
def registeredToolNames : List String :=
  ["create_customer", "create_invoice", "list_invoices"]

/-- The error message of the SDK `response.text` quick accessor when the
response carries a function-call part instead of simple text. -/
def textAccessorFunctionCallMsg : String :=
  "Invalid operation: the response.text quick accessor only works for simple text responses"

/-- The error message of the SDK `response.text` quick accessor when the
response contains no valid part. -/
def textAccessorNoPartMsg : String :=
  "Invalid operation: the response contains no valid Part"

/-- The SDK accessor `response.text` of the external Gemini library: it raises
a ValueError when the first candidate carries a function-call part (or no part
at all), and otherwise returns the concatenated text of the parts. `.error e`
stands for a raised exception with message `e`. -/
def responseText (r : ModelResponse) : Except String String :=
  match r.candidates with
  | [] => .error textAccessorNoPartMsg
  | candidate :: _ =>
    match candidate.content with
    | none => .error textAccessorNoPartMsg
    | some content =>
      if content.parts.any (fun p => p.function_call.isSome) then
        .error textAccessorFunctionCallMsg
      else if content.parts.isEmpty then
        .error textAccessorNoPartMsg
      else
        .ok (String.join (content.parts.map Part.text))

/-- Look up one keyword argument by name (`function_call.args` converted to a
dict, then unpacked with `**args`). -/
def lookupArg (args : List (String × GVal)) (key : String) : Option GVal :=
  (args.find? (fun p => p.1 = key)).map Prod.snd

/-- Extract an optional string keyword argument with a default; `.error` models
the TypeError Python raises at call time when the value has the wrong shape. -/
def optStrArg (args : List (String × GVal)) (key dflt : String) :
    Except String String :=
  match lookupArg args key with
  | none => .ok dflt
  | some (.str s) => .ok s
  | some (.num _) => .error ("TypeError: argument " ++ key ++ " is not a string")

/-- Python keyword binding for `create_customer(**args)`: `email` is required,
`name` and `description` default to `""`, and an unexpected keyword raises a
TypeError. -/
def bindCreateCustomer (args : List (String × GVal)) :
    Except String (String × String × String) :=
  if args.any (fun p => p.1 ∉ ["email", "name", "description"]) then
    .error "TypeError: create_customer got an unexpected keyword argument"
  else
    match lookupArg args "email" with
    | none => .error "TypeError: create_customer missing required argument email"
    | some (.num _) => .error "TypeError: argument email is not a string"
    | some (.str email) =>
      match optStrArg args "name" "", optStrArg args "description" "" with
      | .ok name, .ok description => .ok (email, name, description)
      | .error e, _ => .error e
      | _, .error e => .error e

/-- Python keyword binding for `create_invoice(**args)`: `customer_id` and
`amount` are required, `currency` defaults to `"inr"`, `description` to `""`,
and an unexpected keyword raises a TypeError. -/
def bindCreateInvoice (args : List (String × GVal)) :
    Except String (String × ℚ × String × String) :=
  if args.any (fun p => p.1 ∉ ["customer_id", "amount", "currency", "description"]) then
    .error "TypeError: create_invoice got an unexpected keyword argument"
  else
    match lookupArg args "customer_id", lookupArg args "amount" with
    | some (.str cid), some (.num amount) =>
      match optStrArg args "currency" "inr", optStrArg args "description" "" with
      | .ok currency, .ok description => .ok (cid, amount, currency, description)
      | .error e, _ => .error e
      | _, .error e => .error e
    | _, _ => .error "TypeError: create_invoice missing or malformed required argument"

/-- Python keyword binding for `list_invoices(**args)`: `customer_id` is
optional (default `None`), and an unexpected keyword raises a TypeError. -/
def bindListInvoices (args : List (String × GVal)) :
    Except String (Option String) :=
  if args.any (fun p => p.1 ∉ ["customer_id"]) then
    .error "TypeError: list_invoices got an unexpected keyword argument"
  else
    match lookupArg args "customer_id" with
    | none => .ok none
    | some (.str cid) => .ok (some cid)
    | some (.num _) => .error "TypeError: argument customer_id is not a string"

/-- The outcome of one iteration of the `for part in content.parts` loop of
`run_quotation_agent`: no dispatch (continue), an early return, or a raised
exception. -/
inductive LoopOutcome
  | noMatch
  | ret (s : String)
  | exn (e : String)
deriving DecidableEq, Repr

/-- One loop iteration: dispatch the part's function call to the handler whose
name matches exactly one of the three registered tools; a part with no
function call, or with an unregistered tool name, falls through the `elif`
chain and the loop continues. -/
def partOutcome (api : StripeAPI) (p : Part) : LoopOutcome :=
  match p.function_call with
  | none => .noMatch
  | some fc =>
    if fc.name = "create_customer" then
      match bindCreateCustomer fc.args with
      | .ok (email, name, description) =>
          .ret ("ðŸ‘¤ " ++ create_customer api email name description)
      | .error e => .exn e
    else if fc.name = "create_invoice" then
      match bindCreateInvoice fc.args with
      | .ok (cid, amount, currency, description) =>
          .ret ("âœ… " ++ create_invoice api cid amount currency description)
      | .error e => .exn e
    else if fc.name = "list_invoices" then
      match bindListInvoices fc.args with
      | .ok cid => .ret ("ðŸ“‹ " ++ list_invoices api cid)
      | .error e => .exn e
    else .noMatch

/-- The whole `for part in content.parts` loop. -/
def loopParts (api : StripeAPI) : List Part → LoopOutcome
  | [] => .noMatch
  | p :: ps =>
    match partOutcome api p with
    | .noMatch => loopParts api ps
    | o => o

/-- The generic agent-level error string returned by the `except` of
`run_quotation_agent` for a raised exception with text `e`. -/
def agentErrMsg (e : String) : String :=
  "I'm sorry, I encountered an error while processing your request: " ++ e

/-- `run_quotation_agent(message)` from `src/main.py`. `genModel` is the
external `model.generate_content` call, returning `.error e` when it raises.
The function inspects the first candidate's parts for a function call naming
one of the three registered tools, dispatches to it, and otherwise falls back
to `response.text`; any exception anywhere in the body is caught and turned
into `agentErrMsg`. -/
def run_quotation_agent (api : StripeAPI)
    (genModel : String → Except String ModelResponse) (message : String) : String :=
  match genModel message with
  | .error e => agentErrMsg e
  | .ok response =>
    let outcome :=
      match response.candidates with
      | [] => LoopOutcome.noMatch
      | candidate :: _ =>
        match candidate.content with
        | none => LoopOutcome.noMatch
        | some content => loopParts api content.parts
    match outcome with
    | .ret s => s
    | .exn e => agentErrMsg e
    | .noMatch =>
      match responseText response with
      | .ok t => t
      | .error e => agentErrMsg e

/-- `process_chat_message(message)` from `src/main.py`: runs the agent inside a
`try` whose `except` is unreachable here because the embedded
`run_quotation_agent` catches every exception itself and is total. -/
def process_chat_message (api : StripeAPI)
    (genModel : String → Except String ModelResponse) (message : String) : String :=
  run_quotation_agent api genModel message

/-- The inbound `ChatMessage` pydantic model: `session_id` and `message` are
required; `user_id` defaults to `"user"`, `timestamp` to `None`,
`message_type` to `"chat"` (defaults are applied at parse time, so a parsed
message carries concrete values). -/
structure ChatMessage where
  session_id : String
  message : String
  user_id : String
  timestamp : Option String
  message_type : String
deriving DecidableEq, Repr

/-- The outbound `ChatResponse` pydantic model with its field defaults
(`sender="agent"`, `message_type="response"`, `success=True`, `error=None`). -/
structure ChatResponse where
  session_id : String
  message : String
  sender : String
  timestamp : String
  message_type : String
  success : Bool
  error : Option String
deriving DecidableEq, Repr

/-- An inbound websocket frame after the parse step of the endpoint loop:
either valid JSON that validates as a `ChatMessage`, valid JSON whose
`ChatMessage(**message_data)` validation raises (message `e`), or a frame that
is not valid JSON (`json.JSONDecodeError`). -/
inductive Frame
  | json (m : ChatMessage)
  | schemaErr (raw : String) (e : String)
  | notJson (raw : String)
deriving DecidableEq, Repr

/-- The clear test of the endpoint: `message_type == "clear"` or
`message.lower().strip() == "/clear"`. -/
def isClear (m : ChatMessage) : Bool :=
  m.message_type = "clear" || pyStrip (pyLower m.message) = "/clear"

/-- The fixed confirmation message sent after a clear. -/
def clearConfirmation : String := "Chat history has been cleared."

/-- The fixed generic message of the endpoint's error branch. -/
def wsGenericErrorMsg : String :=
  "Sorry, I encountered an error processing your message."

/-- One iteration of the `while True` receive loop of `websocket_endpoint` in
`src/main.py`, for one inbound frame: returns the new global
`conversation_history` and the `ChatResponse` sent back on the frame's own
connection. `connSession` is the server-generated per-connection session id
(`str(uuid.uuid4())` at connect time) and `now` the timestamp
`datetime.now().isoformat()`. -/
def websocket_turn (api : StripeAPI)
    (genModel : String → Except String ModelResponse)
    (connSession now : String) (hist : List String) (f : Frame) :
    List String × ChatResponse :=
  match f with
  | .json m =>
    if isClear m then
      ([], { session_id := m.session_id, message := clearConfirmation,
             sender := "agent", timestamp := now, message_type := "response",
             success := true, error := none })
    else
      (hist, { session_id := m.session_id,
               message := process_chat_message api genModel m.message,
               sender := "agent", timestamp := now, message_type := "response",
               success := true, error := none })
  | .notJson raw =>
      (hist, { session_id := connSession,
               message := process_chat_message api genModel raw,
               sender := "agent", timestamp := now, message_type := "response",
               success := true, error := none })
  | .schemaErr _ e =>
      (hist, { session_id := connSession, message := wsGenericErrorMsg,
               sender := "agent", timestamp := now, message_type := "response",
               success := false, error := some e })

/-- `ConnectionManager.disconnect` from `src/main.py`:
`self.active_connections.remove(websocket)`. Python `list.remove` removes the
first occurrence and raises a ValueError when the element is absent; `.error`
stands for that raised exception. -/
def disconnect (active_connections : List Nat) (websocket : Nat) :
    Except String (List Nat) :=
  if websocket ∈ active_connections then
    .ok (active_connections.erase websocket)
  else
    .error "ValueError: list.remove(x): x not in list"

/-! ## Concrete oracles used by witnesses and counterexamples -/

/-- A concrete Stripe oracle on which every remote call raises. -/
def failAPI : StripeAPI where
  customerRetrieve := fun _ => .error (.other "api offline")
  customerCreate := fun _ _ _ => .error (.other "api offline")
  invoiceCreate := fun _ _ _ => .error (.other "api offline")
  invoiceItemCreate := fun _ _ _ _ _ => .error (.other "api offline")
  finalizeInvoice := fun _ => .error (.other "api offline")
  invoiceList := fun _ => .error (.other "api offline")

/-- A concrete finalized invoice with one line item of 25050 minor units. -/
def sampleFinalized : StripeInvoice :=
  { id := "in_100", customer := "cus_real", currency := "inr",
    itemAmounts := [25050], total := 25050 }

/-- A concrete Stripe oracle on which only customer `"cus_real"` exists, every
create succeeds, and finalizing yields `sampleFinalized`. -/
def sampleAPI : StripeAPI where
  customerRetrieve := fun cid =>
    if cid = "cus_real" then
      .ok { id := "cus_real", email := "real@example.com", name := "real",
            description := "r" }
    else .error (.invalidRequest ("No such customer: " ++ cid))
  customerCreate := fun email name description =>
    .ok { id := "cus_demo_77", email := email, name := name,
          description := description }
  invoiceCreate := fun customer currency _ =>
    .ok { id := "in_100", customer := customer, currency := currency,
          itemAmounts := [], total := 0 }
  invoiceItemCreate := fun _ _ _ _ _ => .ok ()
  finalizeInvoice := fun _ => .ok sampleFinalized
  invoiceList := fun _ => .ok []

/-- A concrete ordinary chat message (no clear marker). -/
def exampleChatMessage : ChatMessage :=
  { session_id := "s1", message := "create an invoice", user_id := "user",
    timestamp := none, message_type := "chat" }

/-! ## Theorems for the claims -/

/-- C3: an inbound valid `ChatMessage` whose `message_type` is `"clear"` or
whose text, lowercased and trimmed, is `"/clear"`, resets the global
conversation history to empty and yields the fixed confirmation response
addressed to the message's own session — the output is a fixed record
independent of the model and payments oracles, so the message is never
submitted to the agent loop, and independent of every other field of the
message. -/
theorem clear_resets_history_and_confirms (api : StripeAPI)
    (genModel : String → Except String ModelResponse)
    (connSession now : String) (hist : List String) (m : ChatMessage)
    (h : m.message_type = "clear" ∨ pyStrip (pyLower m.message) = "/clear") :
    websocket_turn api genModel connSession now hist (.json m)
      = ([], { session_id := m.session_id, message := clearConfirmation,
               sender := "agent", timestamp := now, message_type := "response",
               success := true, error := none }) := by
  have hc : isClear m = true := by
    rcases h with h | h <;> simp [isClear, h]
  simp [websocket_turn, hc]

/-- Witness for C3 at a concrete clear message (text `" /CLEAR "`, which
lowercases and trims to `"/clear"`), a nonempty starting history, and concrete
oracles. -/
theorem clear_resets_history_and_confirms_witness :
    websocket_turn failAPI (fun _ => .error "x") "conn" "t0" ["old entry"]
        (.json { session_id := "s1", message := " /CLEAR ", user_id := "u7",
                 timestamp := some "t", message_type := "chat" })
      = ([], { session_id := "s1", message := clearConfirmation,
               sender := "agent", timestamp := "t0", message_type := "response",
               success := true, error := none }) :=
  clear_resets_history_and_confirms _ _ _ _ _ _ (Or.inr (by decide))

/-- C6: an inbound frame that is not valid JSON does not crash the turn: the
raw payload is processed as plain chat text, and the reply carries
`message_type = "response"` and the server-generated per-connection session
id, not anything taken from the payload. -/
theorem nonjson_frame_falls_back_to_plain_chat (api : StripeAPI)
    (genModel : String → Except String ModelResponse)
    (connSession now : String) (hist : List String) (raw : String) :
    ((websocket_turn api genModel connSession now hist (.notJson raw)).2).message_type
        = "response"
      ∧ ((websocket_turn api genModel connSession now hist (.notJson raw)).2).session_id
        = connSession
      ∧ ((websocket_turn api genModel connSession now hist (.notJson raw)).2).message
        = process_chat_message api genModel raw
      ∧ ((websocket_turn api genModel connSession now hist (.notJson raw)).2).success
        = true :=
  ⟨rfl, rfl, rfl, rfl⟩

/-- C7 counterexample: `ConnectionManager.disconnect` is not idempotent — on a
connection that is no longer in the active set, `list.remove` raises a
ValueError instead of returning safely. -/
theorem disconnect_absent_connection_raises :
    disconnect [] 0 = .error "ValueError: list.remove(x): x not in list" := rfl

/-- C7 amended: `disconnect` removes the first occurrence of the connection
from the active set when the connection is present, and raises a ValueError
(here `.error`) when it is absent — so a second call on the same connection
faults rather than being idempotent. -/
theorem disconnect_removes_or_raises (l : List Nat) (c : Nat) :
    (c ∈ l → disconnect l c = .ok (l.erase c))
      ∧ (c ∉ l → disconnect l c
          = .error "ValueError: list.remove(x): x not in list") := by
  constructor
  · intro h; simp [disconnect, h]
  · intro h; simp [disconnect, h]

/-- Witness for C7's amended statement at a concrete singleton set: removing
the registered connection succeeds, removing an unregistered one raises. -/
theorem disconnect_removes_or_raises_witness :
    disconnect [5] 5 = .ok (([5] : List Nat).erase 5)
      ∧ disconnect [5] 7 = .error "ValueError: list.remove(x): x not in list" :=
  ⟨(disconnect_removes_or_raises [5] 5).1 (by decide),
   (disconnect_removes_or_raises [5] 7).2 (by decide)⟩

/-- The exception text attached to a frame's error path is nonempty (the
pydantic validation errors that reach the endpoint's generic `except` branch
always carry a message). -/
def frameExnNonempty : Frame → Prop
  | .schemaErr _ e => e ≠ ""
  | _ => True

/-- C9: every `ChatResponse` the endpoint sends satisfies the invariant that
`success = false` implies the `error` field is populated with the (nonempty)
exception text and the `message` field is the fixed generic user-safe string,
never the raw exception text. -/
theorem failure_responses_carry_error_and_generic_message (api : StripeAPI)
    (genModel : String → Except String ModelResponse)
    (connSession now : String) (hist : List String) (f : Frame)
    (hne : frameExnNonempty f) :
    ((websocket_turn api genModel connSession now hist f).2).success = false →
      (∃ e, ((websocket_turn api genModel connSession now hist f).2).error = some e
          ∧ e ≠ "")
        ∧ ((websocket_turn api genModel connSession now hist f).2).message
          = wsGenericErrorMsg := by
  cases f with
  | json m =>
    intro h
    by_cases hc : isClear m <;> simp [websocket_turn, hc] at h
  | schemaErr raw e =>
    intro _
    exact ⟨⟨e, rfl, hne⟩, rfl⟩
  | notJson raw =>
    intro h
    simp [websocket_turn] at h

/-- Witness for C9 at a concrete schema-invalid frame whose validation error
text is `"validation error"`. -/
theorem failure_responses_witness :
    (∃ e, ((websocket_turn failAPI (fun _ => .error "x") "conn" "t0" []
              (.schemaErr "bad frame" "validation error")).2).error = some e
        ∧ e ≠ "")
      ∧ ((websocket_turn failAPI (fun _ => .error "x") "conn" "t0" []
            (.schemaErr "bad frame" "validation error")).2).message
        = wsGenericErrorMsg :=
  failure_responses_carry_error_and_generic_message failAPI (fun _ => .error "x")
    "conn" "t0" [] (.schemaErr "bad frame" "validation error") (by simp [frameExnNonempty]) rfl

/-- C10: for a frame that parses and validates as a `ChatMessage`, the
outbound response echoes the inbound message's `session_id` (on both the clear
and the agent path); the server-generated per-connection id appears only on
the non-JSON fallback and the validation-error path. -/
theorem json_frame_echoes_inbound_session_id (api : StripeAPI)
    (genModel : String → Except String ModelResponse)
    (connSession now : String) (hist : List String) :
    (∀ m : ChatMessage,
        ((websocket_turn api genModel connSession now hist (.json m)).2).session_id
          = m.session_id)
      ∧ (∀ raw,
          ((websocket_turn api genModel connSession now hist (.notJson raw)).2).session_id
            = connSession)
      ∧ (∀ raw e,
          ((websocket_turn api genModel connSession now hist (.schemaErr raw e)).2).session_id
            = connSession) := by
  refine ⟨fun m => ?_, fun raw => rfl, fun raw e => rfl⟩
  by_cases hc : isClear m <;> simp [websocket_turn, hc]

/-- C5: each of the three action handlers is a total function into strings —
every remote-call exception is absorbed at the handler boundary — and for
every possible behaviour of the payments oracle the result is either the
handler's success string or its descriptive `"Error ...: "` string; no raised
exception ever reaches the agent loop from this layer. -/
theorem action_handlers_return_strings (api : StripeAPI) :
    (∀ email name description,
        (∃ cid, create_customer api email name description
            = "Customer " ++ cid ++ " created successfully for " ++ email)
          ∨ (∃ e, create_customer api email name description
              = "Error creating customer: " ++ e))
      ∧ (∀ (customer_id : String) (amount : ℚ) (currency description : String),
          (∃ invoiceId cid total,
              create_invoice api customer_id amount currency description
                = invoiceSuccessMsg invoiceId cid (pyTrunc amount) total currency)
            ∨ (∃ e, create_invoice api customer_id amount currency description
                = "Error creating invoice: " ++ e))
      ∧ (∀ customer_id,
          (∃ n : Nat, list_invoices api customer_id
              = "Found " ++ toString n ++ " invoices.")
            ∨ (∃ e, list_invoices api customer_id
                = "Error listing invoices: " ++ e)) := by
  refine ⟨fun email name description => ?_,
          fun customer_id amount currency description => ?_,
          fun customer_id => ?_⟩
  · cases hc : api.customerCreate email
        (if name = "" then emailLocalPart email else name)
        (if description = "" then "Customer created via AI agent" else description) with
    | ok c => exact .inl ⟨c.id, by simp [create_customer, hc]⟩
    | error e => exact .inr ⟨e.msg, by simp [create_customer, hc]⟩
  · cases hres : resolveCustomerId api customer_id with
    | error e => exact .inr ⟨e.msg, by simp [create_invoice, hres]⟩
    | ok cid =>
      cases hinv : api.invoiceCreate cid (pyLower currency)
          (if description = "" then "Invoice created by AI agent" else description) with
      | error e => exact .inr ⟨e.msg, by simp [create_invoice, hres, hinv]⟩
      | ok invoice =>
        cases hitem : api.invoiceItemCreate cid invoice.id (pyTrunc amount)
            (pyLower currency)
            (if description = "" then "Invoice item" else description) with
        | error e => exact .inr ⟨e.msg, by simp [create_invoice, hres, hinv, hitem]⟩
        | ok u =>
          cases hfin : api.finalizeInvoice invoice.id with
          | error e =>
              exact .inr ⟨e.msg, by simp [create_invoice, hres, hinv, hitem, hfin]⟩
          | ok finalized =>
              exact .inl ⟨finalized.id, cid, finalized.total,
                by simp [create_invoice, hres, hinv, hitem, hfin]⟩
  · cases customer_id with
    | none =>
      cases hl : api.invoiceList none with
      | ok l => exact .inl ⟨l.length, by simp [list_invoices, hl]⟩
      | error e => exact .inr ⟨e.msg, by simp [list_invoices, hl]⟩
    | some cid =>
      by_cases hcid : cid = ""
      · cases hl : api.invoiceList none with
        | ok l => exact .inl ⟨l.length, by simp [list_invoices, hcid, hl]⟩
        | error e => exact .inr ⟨e.msg, by simp [list_invoices, hcid, hl]⟩
      · cases hl : api.invoiceList (some cid) with
        | ok l => exact .inl ⟨l.length, by simp [list_invoices, hcid, hl]⟩
        | error e => exact .inr ⟨e.msg, by simp [list_invoices, hcid, hl]⟩

/-- C2 counterexample: when the model invocation raises (here `"network
down"`), the `ChatResponse` delivered to the client has `success = true` and
`error = none`, and its message embeds the raw provider error after the
apology prefix — not `success = false` with a generic message and the raw
error captured separately, as the claim states. -/
theorem model_invocation_error_not_flagged :
    ((websocket_turn failAPI (fun _ => .error "network down") "conn" "t0" []
        (.json exampleChatMessage)).2).success = true
      ∧ ((websocket_turn failAPI (fun _ => .error "network down") "conn" "t0" []
          (.json exampleChatMessage)).2).error = none
      ∧ ((websocket_turn failAPI (fun _ => .error "network down") "conn" "t0" []
          (.json exampleChatMessage)).2).message
        = agentErrMsg "network down"
      ∧ agentErrMsg "network down" ≠ wsGenericErrorMsg := by
  exact ⟨rfl, rfl, rfl, by decide⟩

/-- C2 amended: every exception raised during the model-invocation step is
caught, the turn still completes (Done), and the client receives a
`ChatResponse` whose message is the apology prefix followed by the raw error
text, delivered with `success = true` and `error = none`; the raw error
reaches diagnostics only through server-side logging, not through the
response's `error` field. -/
theorem model_invocation_error_caught_in_message (api : StripeAPI)
    (genModel : String → Except String ModelResponse)
    (connSession now : String) (hist : List String) (m : ChatMessage) (e : String)
    (hnc : isClear m = false) (hgen : genModel m.message = .error e) :
    websocket_turn api genModel connSession now hist (.json m)
      = (hist, { session_id := m.session_id, message := agentErrMsg e,
                 sender := "agent", timestamp := now, message_type := "response",
                 success := true, error := none }) := by
  simp [websocket_turn, hnc, process_chat_message, run_quotation_agent, hgen]

/-- Witness for C2's amended statement at a concrete ordinary chat message and
a model call that raises `"boom"`. -/
theorem model_invocation_error_caught_witness :
    websocket_turn failAPI (fun _ => .error "boom") "conn" "t0" []
        (.json exampleChatMessage)
      = ([], { session_id := exampleChatMessage.session_id,
               message := agentErrMsg "boom", sender := "agent",
               timestamp := "t0", message_type := "response",
               success := true, error := none }) :=
  model_invocation_error_caught_in_message failAPI (fun _ => .error "boom")
    "conn" "t0" [] exampleChatMessage "boom" (by decide) rfl

/-- C8: on a fully successful `create_invoice` run, the amount is first
coerced to an integer number of minor units (`int(float(amount))`, here
`pyTrunc`), the single line item carries exactly that amount, and the total
reported in the result string is the sum of the invoice's line-item amounts,
displayed (by `moneyStr` inside `invoiceSuccessMsg`) in major units with
two-decimal precision. -/
theorem invoice_total_reports_item_sum (api : StripeAPI) (customer_id : String)
    (amount : ℚ) (currency description cid : String)
    (invoice finalized : StripeInvoice)
    (hres : resolveCustomerId api customer_id = .ok cid)
    (hinv : api.invoiceCreate cid (pyLower currency)
        (if description = "" then "Invoice created by AI agent" else description)
      = .ok invoice)
    (hitem : api.invoiceItemCreate cid invoice.id (pyTrunc amount)
        (pyLower currency)
        (if description = "" then "Invoice item" else description) = .ok ())
    (hfin : api.finalizeInvoice invoice.id = .ok finalized)
    (hitems : finalized.itemAmounts = [pyTrunc amount])
    (htotal : finalized.total = finalized.itemAmounts.sum) :
    create_invoice api customer_id amount currency description
      = invoiceSuccessMsg finalized.id cid (pyTrunc amount)
          finalized.itemAmounts.sum currency
      ∧ finalized.itemAmounts.sum = pyTrunc amount := by
  constructor
  · simp [create_invoice, hres, hinv, hitem, hfin, ← htotal]
  · simp [hitems]

/-- The fractional amount 25050.9 (= 250509/10), written as an explicit
reduced rational so that the kernel can evaluate it. -/
def sampleAmount : ℚ := ⟨250509, 10, by decide, by decide⟩

/-- Witness for C8 at the concrete successful oracle `sampleAPI`, an existing
customer, and the fractional amount `25050.9` (coerced to `25050` minor
units). -/
theorem invoice_total_reports_item_sum_witness :
    create_invoice sampleAPI "cus_real" sampleAmount "inr" ""
      = invoiceSuccessMsg sampleFinalized.id "cus_real" (pyTrunc sampleAmount)
          sampleFinalized.itemAmounts.sum "inr"
      ∧ sampleFinalized.itemAmounts.sum = pyTrunc sampleAmount :=
  invoice_total_reports_item_sum sampleAPI "cus_real" sampleAmount "inr" ""
    "cus_real"
    { id := "in_100", customer := "cus_real", currency := "inr",
      itemAmounts := [], total := 0 }
    sampleFinalized rfl rfl rfl rfl (by decide) (by decide)

/-- C4: in `create_invoice`, a customer lookup that raises the provider's
invalid-reference (not-found) condition triggers the silent creation of a demo
customer with the deterministic email `customer_id + "@demo.com"`, and the
invoice proceeds under the freshly assigned demo customer id, which is the id
reported in the result string (distinct from the input id whenever the
provider assigns a fresh id distinct from it); when the lookup succeeds, the
reported customer id equals the input id. -/
theorem invoice_demo_customer_substitution (api : StripeAPI) :
    (∀ (customer_id : String) (amount : ℚ) (currency description e : String)
        (demo : StripeCustomer) (invoice finalized : StripeInvoice),
        api.customerRetrieve customer_id = .error (.invalidRequest e) →
        api.customerCreate (customer_id ++ "@demo.com")
            ("Demo Customer " ++ customer_id)
            "Demo customer created by AI agent" = .ok demo →
        api.invoiceCreate demo.id (pyLower currency)
            (if description = "" then "Invoice created by AI agent" else description)
          = .ok invoice →
        api.invoiceItemCreate demo.id invoice.id (pyTrunc amount)
            (pyLower currency)
            (if description = "" then "Invoice item" else description) = .ok () →
        api.finalizeInvoice invoice.id = .ok finalized →
        demo.id ≠ customer_id →
        create_invoice api customer_id amount currency description
          = invoiceSuccessMsg finalized.id demo.id (pyTrunc amount)
              finalized.total currency
          ∧ demo.id ≠ customer_id)
      ∧ (∀ (customer_id : String) (amount : ℚ) (currency description : String)
          (c : StripeCustomer) (invoice finalized : StripeInvoice),
          api.customerRetrieve customer_id = .ok c →
          api.invoiceCreate customer_id (pyLower currency)
              (if description = "" then "Invoice created by AI agent" else description)
            = .ok invoice →
          api.invoiceItemCreate customer_id invoice.id (pyTrunc amount)
              (pyLower currency)
              (if description = "" then "Invoice item" else description) = .ok () →
          api.finalizeInvoice invoice.id = .ok finalized →
          create_invoice api customer_id amount currency description
            = invoiceSuccessMsg finalized.id customer_id (pyTrunc amount)
                finalized.total currency) := by
  constructor
  · intro customer_id amount currency description e demo invoice finalized
      hret hdemo hinv hitem hfin hne
    have hres : resolveCustomerId api customer_id = .ok demo.id := by
      simp [resolveCustomerId, hret, hdemo]
    exact ⟨by simp [create_invoice, hres, hinv, hitem, hfin], hne⟩
  · intro customer_id amount currency description c invoice finalized
      hret hinv hitem hfin
    have hres : resolveCustomerId api customer_id = .ok customer_id := by
      simp [resolveCustomerId, hret]
    simp [create_invoice, hres, hinv, hitem, hfin]

/-- Witness for C4 at the concrete oracle `sampleAPI`: for the unknown id
`"cus_missing"` the invoice is reported under the fresh demo customer id
`"cus_demo_77"`, and for the existing id `"cus_real"` under `"cus_real"`
itself. -/
theorem invoice_demo_customer_substitution_witness :
    (create_invoice sampleAPI "cus_missing" (500 : ℚ) "inr" ""
        = invoiceSuccessMsg sampleFinalized.id "cus_demo_77" (pyTrunc (500 : ℚ))
            sampleFinalized.total "inr"
      ∧ ("cus_demo_77" : String) ≠ "cus_missing")
      ∧ create_invoice sampleAPI "cus_real" (500 : ℚ) "inr" ""
        = invoiceSuccessMsg sampleFinalized.id "cus_real" (pyTrunc (500 : ℚ))
            sampleFinalized.total "inr" :=
  ⟨(invoice_demo_customer_substitution sampleAPI).1 "cus_missing" (500 : ℚ)
      "inr" "" "No such customer: cus_missing"
      { id := "cus_demo_77", email := "cus_missing@demo.com",
        name := "Demo Customer cus_missing",
        description := "Demo customer created by AI agent" }
      { id := "in_100", customer := "cus_demo_77", currency := "inr",
        itemAmounts := [], total := 0 }
      sampleFinalized rfl rfl rfl rfl rfl (by decide),
   (invoice_demo_customer_substitution sampleAPI).2 "cus_real" (500 : ℚ)
      "inr" ""
      { id := "cus_real", email := "real@example.com", name := "real",
        description := "r" }
      { id := "in_100", customer := "cus_real", currency := "inr",
        itemAmounts := [], total := 0 }
      sampleFinalized rfl rfl rfl rfl⟩

/-- The dispatch loop of `run_quotation_agent` falls through (continues past
every part) when no part carries a function call naming one of the three
registered tools. -/
theorem loopParts_noMatch_of_unregistered (api : StripeAPI) (ps : List Part)
    (h : ∀ p ∈ ps, ∀ fc, p.function_call = some fc →
        fc.name ∉ registeredToolNames) :
    loopParts api ps = .noMatch := by
  induction ps with
  | nil => rfl
  | cons p ps ih =>
    have hp : partOutcome api p = .noMatch := by
      unfold partOutcome
      cases hfc : p.function_call with
      | none => rfl
      | some fc =>
        have hn := h p (List.mem_cons_self p ps) fc hfc
        simp [registeredToolNames] at hn
        obtain ⟨h1, h2, h3⟩ := hn
        simp [h1, h2, h3]
    have hrest := ih fun q hq => h q (List.mem_cons_of_mem p hq)
    simp [loopParts, hp, hrest]

/-- C1: when the model's response carries at least one function-call part and
no function-call part names one of the three registered tools, the agent turn
neither dispatches silently nor faults: the fall-through to the SDK text
accessor raises, the exception is caught, and the turn returns an explicit
error result — the apology prefix followed by the accessor's error text. -/
theorem unknown_tool_name_yields_error_result (api : StripeAPI)
    (genModel : String → Except String ModelResponse) (message : String)
    (r : ModelResponse) (candidate : Candidate) (rest : List Candidate)
    (content : Content)
    (hgen : genModel message = .ok r)
    (hcand : r.candidates = candidate :: rest)
    (hcontent : candidate.content = some content)
    (hfc : ∃ p ∈ content.parts, p.function_call.isSome)
    (hunk : ∀ p ∈ content.parts, ∀ fc, p.function_call = some fc →
        fc.name ∉ registeredToolNames) :
    run_quotation_agent api genModel message
      = agentErrMsg textAccessorFunctionCallMsg := by
  have hloop : loopParts api content.parts = .noMatch :=
    loopParts_noMatch_of_unregistered api content.parts hunk
  have hany : content.parts.any (fun p => p.function_call.isSome) = true := by
    obtain ⟨p, hp, hps⟩ := hfc
    exact List.any_eq_true.mpr ⟨p, hp, hps⟩
  have htext : responseText r = .error textAccessorFunctionCallMsg := by
    unfold responseText
    rw [hcand]
    simp [hcontent, hany]
  unfold run_quotation_agent
  rw [hgen]
  simp only [hcand, hcontent, hloop, htext]

/-- A concrete model response whose only part carries a function call naming
the unregistered tool `"delete_invoice"`. -/
def unknownToolResponse : ModelResponse :=
  { candidates :=
      [{ content := some { parts :=
          [{ function_call := some { name := "delete_invoice", args := [] },
             text := "" }] } }] }

/-- Witness for C1 at the concrete response `unknownToolResponse`. -/
theorem unknown_tool_name_yields_error_result_witness :
    run_quotation_agent failAPI (fun _ => .ok unknownToolResponse)
        "delete invoice 5"
      = agentErrMsg textAccessorFunctionCallMsg :=
  unknown_tool_name_yields_error_result failAPI (fun _ => .ok unknownToolResponse)
    "delete invoice 5" unknownToolResponse
    { content := some { parts :=
        [{ function_call := some { name := "delete_invoice", args := [] },
           text := "" }] } }
    []
    { parts := [{ function_call := some { name := "delete_invoice", args := [] },
                  text := "" }] }
    rfl rfl rfl
    ⟨{ function_call := some { name := "delete_invoice", args := [] }, text := "" },
      by simp, rfl⟩
    (by
      intro p hp fc hfc
      simp only [List.mem_singleton] at hp
      subst hp
      simp only [Option.some.injEq] at hfc
      subst hfc
      decide)

end InvoiceAgent
